import Mathlib

set_option maxRecDepth 40000

/-!
Verification of the conversation scheduler and layered memory subsystem of a
multi-agent murder-mystery discussion program.

The Lean definitions below are a shallow embedding of the Python source:
  * `add_fact`            embeds `LongTermMemory.add_fact`   (src/memory/agent_memory.py)
  * `update_suspicion`    embeds `KnowledgeGraph.update_suspicion` (same file);
    the Python suspicion dict is modelled as an association list with unique
    keys, in insertion order, which matches Python 3.7+ dict semantics.
  * `decide_next_speaker` embeds `GameMaster.decide_next_speaker`
    (src/game-master/game_master.py); the tie-break LLM call is an explicit
    `Option SpeakerDecision` parameter (`none` models the call raising).
  * `run_turn` embeds one pass through the LangGraph pipeline of
    src/graphs/discussion.py (think_all, game_master_decide, speak,
    update_history, check_round_advance, advance_turn); the external agent
    capabilities (think, speak, tie-break) are function parameters.
-/

/- ──────────────────────── string helpers ──────────────────────── -/

/-- `leadMatch pat l` is true when `pat` is an initial segment of `l`. -/
def leadMatch : List Char → List Char → Bool
  | [], _ => true
  | _ :: _, [] => false
  | a :: as, b :: bs => a = b && leadMatch as bs

/-- `hasSub pat l` is true when `pat` occurs contiguously inside `l`
(Python `pat in s` on strings). -/
def hasSub (pat : List Char) : List Char → Bool
  | [] => leadMatch pat []
  | l@(_ :: rest) => leadMatch pat l || hasSub pat rest

/-- Python substring test `pat in s`. -/
def strIn (pat s : String) : Bool := hasSub pat.data s.data

/-- Python `s.lower()` (ASCII case folding suffices for the agent names and
dialogue the program handles). -/
def lowerStr (s : String) : String := String.mk (s.data.map Char.toLower)

/-- Python `s.split()[0]`: first maximal run of non-whitespace characters. -/
def firstToken (s : String) : String :=
  String.mk ((s.data.dropWhile Char.isWhitespace).takeWhile (fun c => !c.isWhitespace))

/-- Number of whitespace-separated words (spec-side notion used by the
20-word truncation clause of the spec; single blanks separate words). -/
def tokenCountAux : Bool → List Char → Nat
  | _, [] => 0
  | inWord, c :: rest =>
    if c = ' ' then tokenCountAux false rest
    else (if inWord then 0 else 1) + tokenCountAux true rest

/-- Word count of a string. -/
def countWords (s : String) : Nat := tokenCountAux false s.data

/- ──────────────────────── long-term fact store ──────────────────────── -/

/-- `LongTermMemory.add_fact` (src/memory/agent_memory.py lines 128-131):
appends `fact` unless it is already present, with exact case-sensitive
comparison; the stored text is not altered in any way. -/
def add_fact (facts : List String) (fact : String) : List String :=
  if fact ∈ facts then facts else facts ++ [fact]

/- ──────────────────────── suspicion ledger ──────────────────────── -/

/-- `Suspicion` dataclass (src/memory/agent_memory.py lines 57-62). -/
structure Suspicion where
  target : String
  level : Int
  reasons : List String
  deriving DecidableEq, Repr

/-- Python dict lookup `d[t]` / `t in d` on the suspicions dict, modelled on
the association list (first matching key; keys are unique in a dict). -/
def findSuspicion : List (String × Suspicion) → String → Option Suspicion
  | [], _ => none
  | p :: rest, t => if p.1 = t then some p.2 else findSuspicion rest t

/-- The mutation `KnowledgeGraph.update_suspicion` performs on one entry:
`level = max(-5, min(5, level + delta))` and `reasons.append(reason)`
(src/memory/agent_memory.py lines 293-294). -/
def bumpSuspicion (s : Suspicion) (delta : Int) (reason : String) : Suspicion :=
  { s with level := max (-5) (min 5 (s.level + delta)),
           reasons := s.reasons ++ [reason] }

/-- `KnowledgeGraph.update_suspicion` (src/memory/agent_memory.py lines
288-294): inserts a fresh `Suspicion(target)` (level 0, no reasons) when the
target is not yet tracked, then clamps the level into [-5, 5] and appends the
reason unconditionally. -/
def update_suspicion (d : List (String × Suspicion)) (target : String)
    (delta : Int) (reason : String) : List (String × Suspicion) :=
  match findSuspicion d target with
  | some s =>
      d.map (fun p => if p.1 = target then (target, bumpSuspicion s delta reason) else p)
  | none => d ++ [(target, bumpSuspicion ⟨target, 0, []⟩ delta reason)]

/- helper lemmas about the suspicion dict -/

lemma findSuspicion_append (d₁ d₂ : List (String × Suspicion)) (t : String) :
    findSuspicion (d₁ ++ d₂) t =
      match findSuspicion d₁ t with
      | some s => some s
      | none => findSuspicion d₂ t := by
  induction d₁ with
  | nil => simp [findSuspicion]
  | cons p rest ih =>
    by_cases hp : p.1 = t
    · simp [findSuspicion, hp]
    · simp [findSuspicion, hp, ih]

lemma findSuspicion_map_update (d : List (String × Suspicion)) (t : String)
    (g : Suspicion → Suspicion) (s : Suspicion) (h : findSuspicion d t = some s) :
    findSuspicion (d.map (fun p => if p.1 = t then (t, g s) else p)) t = some (g s) := by
  induction d with
  | nil => simp [findSuspicion] at h
  | cons p rest ih =>
    by_cases hp : p.1 = t
    · simp [findSuspicion, hp] at h
      simp [findSuspicion, hp, h]
    · simp [findSuspicion, hp] at h
      simp [findSuspicion, hp, ih h]

lemma findSuspicion_update (d : List (String × Suspicion)) (t : String)
    (δ : Int) (r : String) :
    findSuspicion (update_suspicion d t δ r) t =
      some (bumpSuspicion ((findSuspicion d t).getD ⟨t, 0, []⟩) δ r) := by
  cases h : findSuspicion d t with
  | some s =>
    simpa [update_suspicion, h] using findSuspicion_map_update d t (fun s => bumpSuspicion s δ r) s h
  | none =>
    simp [update_suspicion, h, findSuspicion_append, findSuspicion]

lemma bumpSuspicion_level_bounds (s : Suspicion) (δ : Int) (r : String) :
    -5 ≤ (bumpSuspicion s δ r).level ∧ (bumpSuspicion s δ r).level ≤ 5 := by
  constructor
  · exact le_max_left _ _
  · exact max_le (by norm_num) (min_le_left _ _)

/- ──────────────── theorems: fact store and suspicion ledger ──────────────── -/

/-- A 25-word fact text used to test the (claimed) 20-word truncation. -/
def factC7 : String :=
  "one two three four five six seven eight nine ten eleven twelve thirteen fourteen fifteen sixteen seventeen eighteen nineteen twenty alpha beta gamma delta epsilon"

/-- C7 counterexample: `add_fact` stores a 25-word fact verbatim - the stored
entry has 25 words (exceeding the claimed 20-word bound) and contains no
ellipsis marker, refuting the claim that every stored fact is truncated to at
most 20 words plus an ellipsis. -/
theorem add_fact_no_truncation_counterexample :
    add_fact [] factC7 = [factC7] ∧ countWords factC7 = 25 ∧ strIn "..." factC7 = false := by
  decide

/-- C7 (amended): `add_fact` never alters the text it stores - the exact
argument text is a member of the resulting store, and every entry of the
resulting store is either a previously stored entry or that exact text
(no truncation, no ellipsis marker is ever introduced). -/
theorem add_fact_stores_exact_text (facts : List String) (fact : String) :
    fact ∈ add_fact facts fact ∧ ∀ f ∈ add_fact facts fact, f ∈ facts ∨ f = fact := by
  by_cases h : fact ∈ facts
  · refine ⟨by simp [add_fact, h], ?_⟩
    intro f hf
    simp [add_fact, h] at hf
    exact Or.inl hf
  · refine ⟨by simp [add_fact, h], ?_⟩
    intro f hf
    simp [add_fact, h] at hf
    exact hf

/-- C8: `add_fact` is idempotent on exact text - adding the same text twice
leaves the store identical to adding it once, and when the text was not
already stored, the store afterwards holds exactly one entry equal to it. -/
theorem add_fact_idempotent (facts : List String) (fact : String) :
    add_fact (add_fact facts fact) fact = add_fact facts fact ∧
    (fact ∉ facts → (add_fact facts fact).count fact = 1) := by
  constructor
  · by_cases h : fact ∈ facts
    · simp [add_fact, h]
    · simp [add_fact, h]
  · intro h
    have hc : facts.count fact = 0 := List.count_eq_zero.mpr h
    simp [add_fact, h, hc]

/-- C8 witness: concrete instance of the idempotence theorem. -/
theorem add_fact_idempotent_witness :
    add_fact (add_fact [] "Rosa was in the cellar") "Rosa was in the cellar" =
      add_fact [] "Rosa was in the cellar" ∧
    (add_fact [] "Rosa was in the cellar").count "Rosa was in the cellar" = 1 :=
  ⟨(add_fact_idempotent [] "Rosa was in the cellar").1,
   (add_fact_idempotent [] "Rosa was in the cellar").2 (by decide)⟩

/-- C5 counterexample: from a fresh ledger, `update_suspicion` with delta 7
yields level 5, not the level 7 that the claimed clamp into [-10, 10] would
produce - the code clamps into [-5, 5]. -/
theorem update_suspicion_clamp_counterexample :
    (findSuspicion (update_suspicion [] "Xavier" 7 "reason") "Xavier").map Suspicion.level =
      some 5 ∧
    max (-10 : Int) (min 10 (0 + 7)) = 7 ∧ (5 : Int) ≠ 7 := by
  decide

/-- C5 (amended): `update_suspicion` sets the target's new level to the old
level plus delta clamped into [-5, 5] (not [-10, 10]), and the invariant
-5 ≤ level ≤ 5 is preserved by every update for every tracked target, so it
holds after any sequence of updates and repeated +1 increments saturate at 5. -/
theorem update_suspicion_clamps (d : List (String × Suspicion)) (t : String)
    (δ : Int) (r : String)
    (hd : ∀ p ∈ d, -5 ≤ p.2.level ∧ p.2.level ≤ 5) :
    (∀ p ∈ update_suspicion d t δ r, -5 ≤ p.2.level ∧ p.2.level ≤ 5) ∧
    ∃ s, findSuspicion (update_suspicion d t δ r) t = some s ∧
      s.level = max (-5) (min 5 (((findSuspicion d t).map Suspicion.level).getD 0 + δ)) := by
  constructor
  · intro p hp
    cases h : findSuspicion d t with
    | some s =>
      rw [update_suspicion, h] at hp
      rcases List.mem_map.mp hp with ⟨q, hq, hfq⟩
      by_cases hqt : q.1 = t
      · rw [if_pos hqt] at hfq
        rw [← hfq]
        exact bumpSuspicion_level_bounds s δ r
      · rw [if_neg hqt] at hfq
        rw [← hfq]
        exact hd q hq
    | none =>
      rw [update_suspicion, h] at hp
      rcases List.mem_append.mp hp with hin | hnew
      · exact hd p hin
      · rcases List.mem_singleton.mp hnew with rfl
        exact bumpSuspicion_level_bounds _ δ r
  · refine ⟨_, findSuspicion_update d t δ r, ?_⟩
    cases h : findSuspicion d t <;> simp [h, bumpSuspicion]

/-- C5 witness: the amended clamp theorem at a concrete input (fresh ledger,
delta 7 saturates the level at 5). -/
theorem update_suspicion_clamps_witness :
    (∀ p ∈ update_suspicion [] "Xavier" 7 "reason", -5 ≤ p.2.level ∧ p.2.level ≤ 5) ∧
    ∃ s, findSuspicion (update_suspicion [] "Xavier" 7 "reason") "Xavier" = some s ∧
      s.level = max (-5) (min 5 (((findSuspicion [] "Xavier").map Suspicion.level).getD 0 + 7)) :=
  update_suspicion_clamps [] "Xavier" 7 "reason" (by decide)

/-- C9 counterexample: applying `update_suspicion` twice with the identical
reason string leaves the target's reasons list with two copies of it - the
reasons list is not deduplicated, refuting the claim. -/
theorem update_suspicion_reasons_counterexample :
    (findSuspicion (update_suspicion (update_suspicion [] "Xavier" 1 "Accused by Rosa")
        "Xavier" 1 "Accused by Rosa") "Xavier").map Suspicion.reasons =
      some ["Accused by Rosa", "Accused by Rosa"] ∧
    ¬ (["Accused by Rosa", "Accused by Rosa"] : List String).Nodup := by
  refine ⟨by decide, by decide⟩

/-- C9 (amended): `update_suspicion` appends the reason unconditionally - the
target's reasons list afterwards is the previous reasons list with the new
reason appended at the end, whether or not the exact string was already
present, so duplicates are retained. -/
theorem update_suspicion_appends_reason (d : List (String × Suspicion)) (t : String)
    (δ : Int) (r : String) :
    ∃ s, findSuspicion (update_suspicion d t δ r) t = some s ∧
      s.reasons = ((findSuspicion d t).map Suspicion.reasons).getD [] ++ [r] := by
  refine ⟨_, findSuspicion_update d t δ r, ?_⟩
  cases h : findSuspicion d t <;> simp [h, bumpSuspicion]

/- ──────────────────────── speaker selection ──────────────────────── -/

/-- `ThinkResult` pydantic model (src/agents/agent.py lines 38-41); the
pydantic validator keeps `importance` in [0, 9], which the claims here do not
rely on, so it is a plain `Nat`. -/
structure ThinkResult where
  thought : String
  action : String
  importance : Nat
  deriving DecidableEq, Repr

/-- `SpeakerDecision` pydantic model (src/game-master/game_master.py lines 8-13). -/
structure SpeakerDecision where
  reasoning : String
  next_speaker : String
  response_constraint : Option String
  is_direct_address : Bool
  deriving DecidableEq, Repr

/-- `Utterance` entry of the shared history (src/schemas/state.py lines 5-8). -/
structure Utterance where
  turn : Nat
  speaker : String
  text : String
  deriving DecidableEq, Repr

/-- Python dict lookup on the `{name -> ThinkResult}` thoughts dict
(`last_speaker in thoughts` / `thoughts[last_speaker]`), modelled on the
association list. -/
def findThought : List (String × ThinkResult) → String → Option ThinkResult
  | [], _ => none
  | p :: rest, t => if p.1 = t then some p.2 else findThought rest t

/-- The 22 address patterns of `GameMaster._detect_direct_address`
(src/game-master/game_master.py lines 96-119), built from the lower-cased
full name and first name. -/
def addressPatterns (nameLower firstName : String) : List String :=
  [ nameLower ++ ",", firstName ++ ",",
    nameLower ++ "?", firstName ++ "?",
    "ask " ++ nameLower, "ask " ++ firstName,
    nameLower ++ " can you", firstName ++ " can you",
    nameLower ++ ", can you", firstName ++ ", can you",
    nameLower ++ " what", firstName ++ " what",
    nameLower ++ ", what", firstName ++ ", what",
    nameLower ++ " where", firstName ++ " where",
    nameLower ++ " why", firstName ++ " why",
    nameLower ++ " tell us", firstName ++ " tell us",
    "to " ++ nameLower, "to " ++ firstName ]

/-- Inner loop of `_detect_direct_address`: does any address pattern for
`agentName` occur in the (already lower-cased) utterance text? -/
def hasAddressPattern (textLower : String) (agentName : String) : Bool :=
  let nameLower := lowerStr agentName
  let firstName := if strIn " " nameLower then firstToken nameLower else nameLower
  (addressPatterns nameLower firstName).any (fun p => strIn p textLower)

/-- `GameMaster._detect_direct_address` (src/game-master/game_master.py lines
84-125): the first agent in `available` with a matching pattern wins. -/
def detect_direct_address (text : String) (available : List String) : Option String :=
  available.find? (fun n => hasAddressPattern (lowerStr text) n)

/-- The candidate set of `decide_next_speaker` (src/game-master/game_master.py
lines 141-142): every agent except the last speaker, with Python truthiness
(`None` and the empty string disable the exclusion). -/
def availableOf (names : List String) : Option String → List String
  | none => names
  | some s => if s = "" then names else names.filter (fun n => n ≠ s)

/-- Python `f"{x}"` on an optional string (`None` renders as "None"). -/
def pyOptStr : Option String → String
  | none => "None"
  | some s => s

/-- The decision returned on the direct-address branch
(src/game-master/game_master.py lines 148-153). -/
def directAddressDecision (addressed : String) (last_speaker : Option String) :
    SpeakerDecision :=
  { reasoning := addressed ++ " was directly addressed by " ++ pyOptStr last_speaker,
    next_speaker := addressed,
    response_constraint := some ("Respond to " ++ pyOptStr last_speaker ++ "\x27s question/statement"),
    is_direct_address := true }

/-- Python `max(thoughts.items(), key=lambda x: x[1].importance)`: the first
entry attaining the maximal importance (ties keep the earlier entry). -/
def maxByImportance (l : List (String × ThinkResult)) : Option (String × ThinkResult) :=
  l.foldl (fun acc p =>
    match acc with
    | none => some p
    | some q => if q.2.importance < p.2.importance then some p else some q) none

/-- The single-winner decision (src/game-master/game_master.py lines 167-184),
including the reasoning note about an excluded higher-urgency last speaker. -/
def singleWinnerDecision (winner : String) (highest : Nat) (last_speaker : Option String)
    (thoughts : List (String × ThinkResult)) : SpeakerDecision :=
  let excluded : Option String :=
    match last_speaker with
    | some ls =>
      if ls = "" then none
      else
        match findThought thoughts ls with
        | some tr =>
          if highest < tr.importance then
            some (" (" ++ ls ++ " had " ++ toString tr.importance ++ "/9 but just spoke)")
          else none
        | none => none
    | none => none
  { reasoning := winner ++ " has the highest urgency score (" ++ toString highest ++
      "/9) among available agents" ++ excluded.getD "",
    next_speaker := winner,
    response_constraint := none,
    is_direct_address := false }

/-- The tie-break step (src/game-master/game_master.py lines 203-242).
`llmResult = some r` models a successful structured LLM call returning `r`;
the returned choice is validated against the tied set, with fuzzy substring
matching and a default of the first tied agent. `llmResult = none` models the
call raising an exception: the fallback picks the first maximal-importance
entry of the WHOLE thoughts dict (the last speaker is not excluded there).
Where Python would raise an IndexError or ValueError (empty `top_agents` or
empty `thoughts`), the model returns the empty speaker name. -/
def tieBreakDecision (top_agents : List String) (thoughts : List (String × ThinkResult))
    (llmResult : Option SpeakerDecision) : SpeakerDecision :=
  match llmResult with
  | some r =>
    let r1 :=
      if r.next_speaker ∈ top_agents then r
      else
        match top_agents.find? (fun a =>
            strIn (lowerStr a) (lowerStr r.next_speaker) ||
            strIn (lowerStr r.next_speaker) (lowerStr a)) with
        | some a => { r with next_speaker := a }
        | none => { r with next_speaker := top_agents.headD "" }
    { r1 with reasoning := "Tie-breaker: " ++ r1.reasoning }
  | none =>
    { reasoning := "Fallback selection based on urgency",
      next_speaker := ((maxByImportance thoughts).map Prod.fst).getD "",
      response_constraint := none,
      is_direct_address := false }

/-- The urgency branch of `decide_next_speaker` (src/game-master/game_master.py
lines 155-242). Python stably sorts `available_thoughts` by descending
importance and consumes the sort only through the top score and the block of
maximal entries, so the model computes the maximum directly and keeps the
maximal entries in their original (insertion) order, exactly as the stable
sort does. -/
def decideByUrgency (available : List String) (last_speaker : Option String)
    (thoughts : List (String × ThinkResult))
    (llmResult : Option SpeakerDecision) : SpeakerDecision :=
  let available_thoughts := thoughts.filter (fun p => p.1 ∈ available)
  match available_thoughts with
  | [] => tieBreakDecision available thoughts llmResult
  | ats =>
    let highest := ats.foldl (fun m q => max m q.2.importance) 0
    let top_agents := (ats.filter (fun q => q.2.importance = highest)).map Prod.fst
    match top_agents with
    | [winner] => singleWinnerDecision winner highest last_speaker thoughts
    | _ => tieBreakDecision top_agents thoughts llmResult

/-- `GameMaster.decide_next_speaker` (src/game-master/game_master.py lines
127-242): direct-address detection on the last utterance first, then urgency
ranking over the candidates excluding the last speaker, then tie-break. -/
def decide_next_speaker (agent_names : List String) (history : List Utterance)
    (last_speaker : Option String) (thoughts : List (String × ThinkResult))
    (llmResult : Option SpeakerDecision) : SpeakerDecision :=
  let available := availableOf agent_names last_speaker
  let direct : Option String :=
    match history.getLast? with
    | some lu => detect_direct_address lu.text available
    | none => none
  match direct with
  | some addressed => directAddressDecision addressed last_speaker
  | none => decideByUrgency available last_speaker thoughts llmResult

/- ──────────────── theorems: speaker selection ──────────────── -/

/-- C1: whenever the last utterance's text contains a direct-address pattern
for some agent in the candidate set (`detect_direct_address` finds a first
match over the candidates, which exclude the last speaker),
`decide_next_speaker` selects that agent unconditionally - for every thoughts
map and every tie-break oracle, hence before and regardless of any importance
scores - and returns a decision whose constraint (the obligation) is non-null
and tells the addressee to respond to the last speaker's statement. -/
theorem direct_address_overrides_urgency
    (names : List String) (history : List Utterance) (u : Utterance)
    (ls addressed : String)
    (thoughts : List (String × ThinkResult)) (llmResult : Option SpeakerDecision)
    (hlast : history.getLast? = some u)
    (ha : detect_direct_address u.text (availableOf names (some ls)) = some addressed) :
    addressed ∈ availableOf names (some ls) ∧
    hasAddressPattern (lowerStr u.text) addressed = true ∧
    decide_next_speaker names history (some ls) thoughts llmResult =
      { reasoning := addressed ++ " was directly addressed by " ++ ls,
        next_speaker := addressed,
        response_constraint := some ("Respond to " ++ ls ++ "\x27s question/statement"),
        is_direct_address := true } := by
  have ha' : (availableOf names (some ls)).find?
      (fun n => hasAddressPattern (lowerStr u.text) n) = some addressed := ha
  refine ⟨List.mem_of_find?_eq_some ha', List.find?_some ha', ?_⟩
  simp [decide_next_speaker, hlast, ha, directAddressDecision, pyOptStr]

/-- History for the C1 witness: the last speaker addresses Bob by name. -/
def histC1 : List Utterance :=
  [⟨3, "Cara White", "Bob, what were you doing in the cellar"⟩]

/-- Thoughts for the C1 witness: a different agent holds the strictly highest
importance score. -/
def thoughtsC1 : List (String × ThinkResult) :=
  [("Alice Smith", ⟨"I have proof", "speak", 9⟩),
   ("Bob Jones", ⟨"waiting", "listen", 1⟩)]

/-- C1 witness: concrete instantiation - Bob Jones is addressed (`"Bob, what"`),
Alice Smith has importance 9 versus Bob's 1, and Bob Jones is still selected
with the response obligation. -/
theorem direct_address_witness :
    "Bob Jones" ∈ availableOf ["Alice Smith", "Bob Jones", "Cara White"] (some "Cara White") ∧
    hasAddressPattern (lowerStr "Bob, what were you doing in the cellar") "Bob Jones" = true ∧
    decide_next_speaker ["Alice Smith", "Bob Jones", "Cara White"] histC1
        (some "Cara White") thoughtsC1 none =
      { reasoning := "Bob Jones was directly addressed by Cara White",
        next_speaker := "Bob Jones",
        response_constraint := some "Respond to Cara White\x27s question/statement",
        is_direct_address := true } :=
  direct_address_overrides_urgency ["Alice Smith", "Bob Jones", "Cara White"] histC1
    ⟨3, "Cara White", "Bob, what were you doing in the cellar"⟩
    "Cara White" "Bob Jones" thoughtsC1 none rfl (by decide)

/-- History for the C2 failing input: no direct-address pattern matches. -/
def histC2 : List Utterance := [⟨0, "Alice", "I think the gardener did it."⟩]

/-- Thoughts for the C2 failing input: the last speaker Alice holds the
strictly highest importance of the whole thoughts dict, while the two
available agents are tied. -/
def thoughtsC2 : List (String × ThinkResult) :=
  [("Alice", ⟨"I must defend myself", "speak", 9⟩),
   ("Bob", ⟨"hmm", "speak", 5⟩),
   ("Cara", ⟨"hmm", "speak", 5⟩)]

/-- C2 failing input, evaluated: with last speaker Alice, a non-empty
candidate set {Bob, Cara} (tied at importance 5), and the tie-break
deliberation raising (`llmResult = none`), `decide_next_speaker` falls back to
the maximal-importance entry of the WHOLE thoughts dict and returns Alice -
the agent who just spoke - violating the no-immediate-repeat rule that the
function's own docstring states ("excluding last speaker"). -/
theorem fallback_returns_last_speaker_bug :
    availableOf ["Alice", "Bob", "Cara"] (some "Alice") = ["Bob", "Cara"] ∧
    (decide_next_speaker ["Alice", "Bob", "Cara"] histC2 (some "Alice")
        thoughtsC2 none).next_speaker = "Alice" := by
  decide

/- ──────────────────────── conversation state machine ──────────────────────── -/

/-- `PendingObligation` (src/schemas/state.py lines 10-14). -/
structure PendingObligation where
  addressee : String
  response_constraint : String
  from_speaker : String
  from_text : String
  deriving DecidableEq, Repr

/-- `GameState` (src/schemas/state.py lines 24-41); `thoughts_history` and the
CSV-export bookkeeping are omitted as they never feed back into the scheduler. -/
structure GameState where
  turn : Nat
  current_round : Nat
  conversations_in_round : Nat
  conversations_per_round : Nat
  history : List Utterance
  pending_obligation : Option PendingObligation
  thoughts : List (String × ThinkResult)
  last_speaker : Option String
  next_speaker : Option String
  new_utterance : Option Utterance
  done : Bool
  phase : String
  deriving DecidableEq, Repr

/-- `GameMaster.should_advance_round` (src/game-master/game_master.py lines
57-64) with `max_rounds = 6`. -/
def should_advance_round (cpr : Nat) (conversations_in_round current_round : Nat) : Bool :=
  if 6 ≤ current_round then false else decide (cpr ≤ conversations_in_round)

/-- `GameMaster.get_phase_for_round` (src/game-master/game_master.py lines 66-78). -/
def get_phase_for_round (round_num : Nat) : String :=
  if round_num = 1 then "introduction"
  else if round_num ≤ 5 then "discussion"
  else "accusation"

/-- `GameMaster.is_game_complete` (src/game-master/game_master.py lines 80-82):
`current_round >= 6 or (current_round == 5 and conversations_in_round >=
conversations_per_round)`. -/
def is_game_complete (cpr : Nat) (current_round conversations_in_round : Nat) : Bool :=
  decide (6 ≤ current_round) ||
    (decide (current_round = 5) && decide (cpr ≤ conversations_in_round))

/-- `think_all` graph node (src/graphs/discussion.py lines 64-113): round 1
skips thinking and clears the thoughts dict; otherwise the (external,
parallel) think step produces the thoughts dict, supplied here by `thinkFn`. -/
def think_all (thinkFn : GameState → List (String × ThinkResult)) (s : GameState) :
    GameState :=
  if s.current_round = 1 then { s with thoughts := [] }
  else { s with thoughts := thinkFn s }

/-- `game_master_decide` graph node (src/graphs/discussion.py lines 116-161):
round-1 round-robin over agents that have not spoken yet; otherwise skip the
turn when no thoughts are available, else delegate to `decide_next_speaker`
and materialise the pending obligation when the decision carries a non-empty
response constraint. Where Python would raise an IndexError (empty agent
list), the model uses the empty speaker name. -/
def game_master_decide (agents : List String)
    (llmFn : GameState → Option SpeakerDecision) (s : GameState) : GameState :=
  if s.current_round = 1 then
    let speakers_so_far := s.history.map (·.speaker)
    let remaining := agents.filter (fun n => ¬ n ∈ speakers_so_far)
    let next :=
      match remaining with
      | n :: _ => n
      | [] => agents.headD ""
    { s with next_speaker := some next, pending_obligation := none }
  else if s.thoughts = [] then
    { s with next_speaker := none, pending_obligation := none }
  else
    let d := decide_next_speaker agents s.history s.last_speaker s.thoughts (llmFn s)
    let pending : Option PendingObligation :=
      match d.response_constraint with
      | some rc =>
        if rc = "" then none
        else some { addressee := d.next_speaker,
                    response_constraint := rc,
                    from_speaker := s.last_speaker.getD "",
                    from_text := match s.history.getLast? with
                                 | some lu => lu.text
                                 | none => "" }
      | none => none
    { s with next_speaker := some d.next_speaker, pending_obligation := pending }

/-- `speak` graph node (src/graphs/discussion.py lines 164-179): when no
speaker is selected (Python-falsy name or a name outside the agent map) the
node yields no utterance and re-emits the previous `last_speaker`; otherwise
the chosen agent's external speak capability (`speakFn`) produces the text,
honouring a pending obligation addressed to that agent. -/
def speak (agents : List String)
    (speakFn : String → GameState → Option String → String) (s : GameState) : GameState :=
  match s.next_speaker with
  | none => { s with new_utterance := none }
  | some sp =>
    if sp = "" ∨ sp ∉ agents then { s with new_utterance := none }
    else
      let constraint : Option String :=
        match s.pending_obligation with
        | some p => if p.addressee = sp then some p.response_constraint else none
        | none => none
      { s with new_utterance := some ⟨s.turn, sp, speakFn sp s constraint⟩,
               last_speaker := some sp }

/-- `update_history` graph node (src/graphs/discussion.py lines 182-186): the
`operator.add` reducer appends the new utterance, or nothing when the turn was
silent. -/
def update_history (s : GameState) : GameState :=
  match s.new_utterance with
  | none => s
  | some u => { s with history := s.history ++ [u] }

/-- Number of distinct entries (`len(set(...))`). -/
def distinctCount (l : List String) : Nat := l.dedup.length

/-- `check_round_advance` graph node (src/graphs/discussion.py lines 189-269):
increments the conversation count, declares the game complete (done,
accusation phase) per `is_game_complete`, ends round 1 once the number of
distinct speakers seen in history (plus the new utterance) reaches the number
of agents, and otherwise advances the round when the count reaches the
threshold. The external per-agent round-knowledge callbacks have no effect on
this state. -/
def check_round_advance (agents : List String) (cpr : Nat) (s : GameState) : GameState :=
  let c := s.conversations_in_round + 1
  if is_game_complete cpr s.current_round c then
    { s with conversations_in_round := c, done := true, phase := "accusation" }
  else if s.current_round = 1 then
    let speakers := s.history.map (·.speaker) ++
      (match s.new_utterance with | some u => [u.speaker] | none => [])
    if agents.length ≤ distinctCount speakers then
      { s with current_round := 2, conversations_in_round := 0,
               phase := get_phase_for_round 2 }
    else { s with conversations_in_round := c }
  else if should_advance_round cpr c s.current_round then
    { s with current_round := s.current_round + 1, conversations_in_round := 0,
             phase := get_phase_for_round (s.current_round + 1) }
  else { s with conversations_in_round := c }

/-- `advance_turn` graph node (src/graphs/discussion.py lines 272-275). -/
def advance_turn (max_turns : Nat) (s : GameState) : GameState :=
  { s with turn := s.turn + 1, done := decide (max_turns ≤ s.turn + 1) || s.done }

/-- One full pass of the compiled LangGraph pipeline (src/graphs/discussion.py
lines 285-310): think_all → game_master_decide → speak → update_history →
check_round_advance → advance_turn. -/
def run_turn (agents : List String) (cpr max_turns : Nat)
    (thinkFn : GameState → List (String × ThinkResult))
    (llmFn : GameState → Option SpeakerDecision)
    (speakFn : String → GameState → Option String → String)
    (s : GameState) : GameState :=
  advance_turn max_turns
    (check_round_advance agents cpr
      (update_history
        (speak agents speakFn
          (game_master_decide agents llmFn
            (think_all thinkFn s)))))

/- ──────────────── theorems: state machine ──────────────── -/

lemma is_game_complete_iff (cpr r c : Nat) :
    is_game_complete cpr r c = true ↔ (6 ≤ r ∨ (r = 5 ∧ cpr ≤ c)) := by
  simp [is_game_complete]

/-- C3: for a running state (`done = false`), `check_round_advance` declares
the conversation complete - `done = true` together with `phase = accusation` -
exactly when the round is at least 6 (the max round), or the round is 5
(max − 1) and the incremented conversation count reaches the
conversations-per-round threshold; in every other state `done` stays false. -/
theorem completion_exactly_at_threshold (agents : List String) (cpr : Nat)
    (s : GameState) (hdone : s.done = false) :
    ((check_round_advance agents cpr s).done = true ∧
      (check_round_advance agents cpr s).phase = "accusation") ↔
      (6 ≤ s.current_round ∨
        (s.current_round = 5 ∧ cpr ≤ s.conversations_in_round + 1)) := by
  by_cases hc : is_game_complete cpr s.current_round (s.conversations_in_round + 1) = true
  · constructor
    · intro _
      exact (is_game_complete_iff cpr s.current_round (s.conversations_in_round + 1)).mp hc
    · intro _
      simp [check_round_advance, hc]
  · have hcond : ¬ (6 ≤ s.current_round ∨
        (s.current_round = 5 ∧ cpr ≤ s.conversations_in_round + 1)) := fun h =>
      hc ((is_game_complete_iff cpr s.current_round (s.conversations_in_round + 1)).mpr h)
    constructor
    · intro hdp
      exfalso
      have hdone' : (check_round_advance agents cpr s).done = s.done := by
        simp only [check_round_advance]
        rw [if_neg hc]
        split
        · split <;> rfl
        · split <;> rfl
      rw [hdone', hdone] at hdp
      exact Bool.false_ne_true hdp.1
    · intro hr
      exact absurd hr hcond

/-- Concrete running state for the C3 witness: round 5, one conversation
short of a threshold of 2. -/
def sC3 : GameState :=
  ⟨50, 5, 1, 2, [], none, [], none, none, none, false, "discussion"⟩

/-- C3 witness: at round 5 the turn that reaches the threshold flips the state
to done/accusation. -/
theorem completion_witness :
    (check_round_advance [] 2 sC3).done = true ∧
    (check_round_advance [] 2 sC3).phase = "accusation" :=
  (completion_exactly_at_threshold [] 2 sC3 rfl).mpr (by decide)

/-- The four agents of the end-to-end scenario. -/
def agentsC4 : List String := ["Alice", "Bob", "Cara", "Dan"]

/-- The initial state built by the runner (src/run_discussion.py lines
191-210): the shared history is seeded with the Game Master's murder
announcement and `last_speaker` is "Game Master". -/
def initC4 : GameState :=
  ⟨0, 1, 0, 20,
   [⟨0, "Game Master", "ANNOUNCEMENT: Elizabeth Killingsworth has been found DEAD."⟩],
   none, [], some "Game Master", none, none, false, "introduction"⟩

/-- One scheduler turn with the runner's configuration (external capabilities
are irrelevant in round 1: thinking is skipped and selection is by
round-robin). -/
def stepC4 : GameState → GameState :=
  run_turn agentsC4 20 130 (fun _ => []) (fun _ => none) (fun sp _ _ => "I am " ++ sp)

/-- C4 failing run, evaluated: starting from the runner's seeded initial
state, after two introduction turns the round is still 1, but the THIRD turn
already advances to round 2 / discussion, because `check_round_advance`
compares the number of DISTINCT SPEAKERS in history - which includes the
non-agent "Game Master" announcement - against the number of agents. Dan
never introduces himself, contradicting the code's own comments ("End after
everyone has introduced themselves", "Each agent introduces themselves
exactly once") and the claim that the advance happens only after every agent
produced exactly one utterance (4 turns). -/
theorem round1_advances_before_all_spoke_bug :
    (stepC4 (stepC4 initC4)).current_round = 1 ∧
    (stepC4 (stepC4 (stepC4 initC4))).current_round = 2 ∧
    (stepC4 (stepC4 (stepC4 initC4))).phase = "discussion" ∧
    (stepC4 (stepC4 (stepC4 initC4))).history.map Utterance.speaker =
      ["Game Master", "Alice", "Bob", "Cara"] ∧
    "Dan" ∉ (stepC4 (stepC4 (stepC4 initC4))).history.map Utterance.speaker := by
  decide

/-- C6: a turn in a thinking round (round ≥ 2) whose intent map comes back
empty still advances without error: the scheduler selects no speaker, no
utterance is produced, the history is unchanged, the last speaker is carried
forward, the conversation count still increments by one (the hypotheses keep
the turn away from a round boundary, where the count resets by design), and
the turn counter still increments. -/
theorem silent_turn_still_advances (agents : List String) (cpr mt : Nat)
    (thinkFn : GameState → List (String × ThinkResult))
    (llmFn : GameState → Option SpeakerDecision)
    (speakFn : String → GameState → Option String → String)
    (s : GameState)
    (hr : s.current_round ≠ 1)
    (hthink : thinkFn s = [])
    (hnc : is_game_complete cpr s.current_round (s.conversations_in_round + 1) = false)
    (hna : should_advance_round cpr (s.conversations_in_round + 1) s.current_round = false) :
    (run_turn agents cpr mt thinkFn llmFn speakFn s).history = s.history ∧
    (run_turn agents cpr mt thinkFn llmFn speakFn s).new_utterance = none ∧
    (run_turn agents cpr mt thinkFn llmFn speakFn s).next_speaker = none ∧
    (run_turn agents cpr mt thinkFn llmFn speakFn s).last_speaker = s.last_speaker ∧
    (run_turn agents cpr mt thinkFn llmFn speakFn s).conversations_in_round =
      s.conversations_in_round + 1 ∧
    (run_turn agents cpr mt thinkFn llmFn speakFn s).turn = s.turn + 1 := by
  simp only [run_turn, think_all, game_master_decide, speak, update_history,
    check_round_advance, advance_turn]
  simp [hr, hthink, hnc, hna]

/-- Concrete state for the C6 witness: round 2, empty intent map. -/
def sC6 : GameState :=
  ⟨7, 2, 0, 20, [⟨0, "Game Master", "announcement"⟩], none, [], some "Alice",
   none, none, false, "discussion"⟩

/-- C6 witness: the silent-turn theorem at a concrete state. -/
theorem silent_turn_witness :
    (run_turn ["Alice", "Bob"] 20 100 (fun _ => []) (fun _ => none)
        (fun _ _ _ => "x") sC6).history = sC6.history ∧
    (run_turn ["Alice", "Bob"] 20 100 (fun _ => []) (fun _ => none)
        (fun _ _ _ => "x") sC6).new_utterance = none ∧
    (run_turn ["Alice", "Bob"] 20 100 (fun _ => []) (fun _ => none)
        (fun _ _ _ => "x") sC6).next_speaker = none ∧
    (run_turn ["Alice", "Bob"] 20 100 (fun _ => []) (fun _ => none)
        (fun _ _ _ => "x") sC6).last_speaker = sC6.last_speaker ∧
    (run_turn ["Alice", "Bob"] 20 100 (fun _ => []) (fun _ => none)
        (fun _ _ _ => "x") sC6).conversations_in_round = sC6.conversations_in_round + 1 ∧
    (run_turn ["Alice", "Bob"] 20 100 (fun _ => []) (fun _ => none)
        (fun _ _ _ => "x") sC6).turn = sC6.turn + 1 :=
  silent_turn_still_advances ["Alice", "Bob"] 20 100 (fun _ => []) (fun _ => none)
    (fun _ _ _ => "x") sC6 (by decide) rfl (by decide) (by decide)

/-- C10: when the speak step runs with no usable speaker (none selected, a
Python-falsy empty name, or a name outside the agent map), it produces no
utterance and leaves every other field - in particular `last_speaker` -
unchanged, so the immediately-preceding-speaker exclusion of the next
selection still refers to the last agent who actually spoke. -/
theorem speak_no_speaker_frame (agents : List String)
    (speakFn : String → GameState → Option String → String)
    (s : GameState)
    (h : s.next_speaker = none ∨
      ∃ sp, s.next_speaker = some sp ∧ (sp = "" ∨ sp ∉ agents)) :
    speak agents speakFn s = { s with new_utterance := none } ∧
    (speak agents speakFn s).new_utterance = none ∧
    (speak agents speakFn s).last_speaker = s.last_speaker ∧
    availableOf agents (speak agents speakFn s).last_speaker =
      availableOf agents s.last_speaker := by
  have hmain : speak agents speakFn s = { s with new_utterance := none } := by
    rcases h with h | ⟨sp, hsp, hcond⟩
    · simp [speak, h]
    · simp only [speak, hsp]
      rw [if_pos hcond]
  exact ⟨hmain, by rw [hmain], by rw [hmain], by rw [hmain]⟩

/-- Concrete state for the C10 witness: `next_speaker` names an agent that is
not in the agent map while `last_speaker` is Alice. -/
def sC10 : GameState :=
  ⟨4, 2, 1, 20, [⟨0, "Alice", "hello"⟩], none, [], some "Alice", some "Ghost",
   none, false, "discussion"⟩

/-- C10 witness: the frame theorem at a concrete state. -/
theorem speak_no_speaker_witness :
    speak ["Alice", "Bob"] (fun _ _ _ => "x") sC10 = { sC10 with new_utterance := none } ∧
    (speak ["Alice", "Bob"] (fun _ _ _ => "x") sC10).new_utterance = none ∧
    (speak ["Alice", "Bob"] (fun _ _ _ => "x") sC10).last_speaker = sC10.last_speaker ∧
    availableOf ["Alice", "Bob"]
        (speak ["Alice", "Bob"] (fun _ _ _ => "x") sC10).last_speaker =
      availableOf ["Alice", "Bob"] sC10.last_speaker :=
  speak_no_speaker_frame ["Alice", "Bob"] (fun _ _ _ => "x") sC10
    (Or.inr ⟨"Ghost", rfl, Or.inr (by decide)⟩)
